import Mathlib

/-!
A shallow embedding of the WebReg Auto-Enroller's core logic, translated from
the Rust source: the seat-threshold policy and poll-verify-act cycle
(src/monitor.rs), the per-section failure tracker (src/stats.rs), the
enrollment pipeline (src/enroll.rs), the retry strategy (src/utils.rs with
tokio_retry semantics), the job-creation threshold handling (src/api.rs,
src/db.rs), the per-target sweep step of the multi-user monitoring loop
(src/multi_user_state.rs), and an interleaving model of start_job's registry
check/insert (src/multi_user_state.rs).

External collaborators (the webweg status/action client, the notifier, the
database) are passed in as explicit outcome values, matching the spec's
treatment of them as opaque collaborators. Timestamps are modelled at
calendar-day granularity (the code only ever compares date_naive values).
-/

/-! ## Seat-threshold policy (src/monitor.rs lines 54-59) -/

/-- Translation of monitor.rs line 57: available_seats > 0. -/
def has_availability (available_seats : Int) : Bool :=
  decide (available_seats > 0)

/-- Translation of monitor.rs line 58:
seat_threshold == 0 or available_seats <= seat_threshold. -/
def within_threshold (available_seats seat_threshold : Int) : Bool :=
  decide (seat_threshold = 0) || decide (available_seats ≤ seat_threshold)

/-- Translation of monitor.rs line 59. -/
def should_attempt (available_seats seat_threshold : Int) : Bool :=
  has_availability available_seats && within_threshold available_seats seat_threshold

/-- The spec's formula for the enrollment decision, written from the spec text:
shouldAttempt(seats, t) == (seats > 0) && (t == 0 || seats <= t). -/
def shouldAttemptSpec (seats t : Int) : Bool :=
  decide (seats > 0) && (decide (t = 0) || decide (seats ≤ t))

/-! ## Section status readings and the poll-verify-act cycle (src/monitor.rs) -/

/-- One entry of the course-info list returned by the status client, with the
fields monitor.rs reads. -/
structure SectionInfo where
  section_code : String
  section_id : String
  available_seats : Int
  total_seats : Int
  enrolled_ct : Int
  waitlist_ct : Int
deriving DecidableEq, Repr

/-- The inner pattern of both loops in monitor_section: scan a course-info
list for the first entry whose section_code matches. -/
def find_section (sect : String) : List SectionInfo → Option SectionInfo
  | [] => none
  | si :: rest => if si.section_code == sect then some si else find_section sect rest

/-- Loop body of monitor.rs monitor_section (lines 21-118). The outer loop
walks the first reading; on the first matching section that passes the
threshold check it performs a fresh recheck fetch (modelled by recheckFetch
applied to the number of rechecks already performed) and scans it for the
matching section; only if the recheck also passes does it return the
section_id taken from the first reading. A recheck with no matching entry
falls through to the rest of the outer loop. -/
def monitor_section_aux : List SectionInfo → (Nat → List SectionInfo) → Nat → String → Int → Option String
  | [], _, _, _, _ => none
  | si :: rest, recheckFetch, n, sect, seat_threshold =>
    if si.section_code == sect then
      if should_attempt si.available_seats seat_threshold then
        match find_section sect (recheckFetch n) with
        | some recheck_info =>
          if should_attempt recheck_info.available_seats seat_threshold then
            some si.section_id
          else
            none
        | none => monitor_section_aux rest recheckFetch (n + 1) sect seat_threshold
      else
        monitor_section_aux rest recheckFetch n sect seat_threshold
    else
      monitor_section_aux rest recheckFetch n sect seat_threshold

/-- Translation of monitor.rs monitor_section, with the two status fetches
supplied as data: course_info is the first reading, recheckFetch n the
result of the (n+1)-st recheck fetch. -/
def monitor_section (course_info : List SectionInfo) (recheckFetch : Nat → List SectionInfo)
    (sect : String) (seat_threshold : Int) : Option String :=
  monitor_section_aux course_info recheckFetch 0 sect seat_threshold

/-- Claim C1: for every seat count and threshold the poll cycle's enrollment
decision satisfies shouldAttempt(seats, t) == (seats > 0) && (t == 0 || seats <= t),
and in particular (5,0) gives true, (5,3) gives false, (2,3) gives true and
(0,0) gives false. -/
theorem C1_should_attempt_matches_spec :
    (∀ seats t : Int, should_attempt seats t = shouldAttemptSpec seats t) ∧
    should_attempt 5 0 = true ∧
    should_attempt 5 3 = false ∧
    should_attempt 2 3 = true ∧
    should_attempt 0 0 = false := by
  refine ⟨fun seats t => rfl, by decide, by decide, by decide, by decide⟩

/-! ## Per-section failure tracker (src/stats.rs) -/

/-- Translation of the SectionFailures struct (stats.rs lines 5-9); the
last_failure timestamp is kept at calendar-day granularity, the only
granularity the code ever compares (date_naive). -/
structure SectionFailures where
  count : Nat
  last_failure : Nat
deriving DecidableEq, Repr

/-- The section_failures HashMap, modelled as an association list. -/
abbrev FailMap := List (String × SectionFailures)

/-- HashMap::get. -/
def fmLookup (m : FailMap) (k : String) : Option SectionFailures :=
  match m with
  | [] => none
  | (k2, v) :: rest => if k2 == k then some v else fmLookup rest k

/-- HashMap::remove: drop every entry stored under the key. -/
def fmRemove (m : FailMap) (k : String) : FailMap :=
  m.filter (fun p => !(p.1 == k))

/-- HashMap::insert: the key now maps to the new value, all other keys are
unchanged. -/
def fmInsert (m : FailMap) (k : String) (v : SectionFailures) : FailMap :=
  (k, v) :: fmRemove m k

/-- Translation of EnrollmentStats::should_notify_for_section (stats.rs
lines 24-58), with the current time passed in as the current day. Returns
the notify decision together with the updated tracker (the Rust method
mutates self.section_failures in place). -/
def should_notify_for_section (m : FailMap) (section_id : String) (today : Nat) :
    Bool × FailMap :=
  match fmLookup m section_id with
  | some failures =>
    if failures.last_failure < today then
      (true, fmInsert m section_id ⟨1, today⟩)
    else if 3 ≤ failures.count then
      (false, m)
    else
      (true, fmInsert m section_id ⟨failures.count + 1, today⟩)
  | none => (true, fmInsert m section_id ⟨1, today⟩)

/-- Results of n successive failure calls to should_notify_for_section for
one target, threading the tracker through. -/
def notify_results (m : FailMap) (k : String) (today : Nat) : Nat → List Bool
  | 0 => []
  | n + 1 =>
    let r := should_notify_for_section m k today
    r.1 :: notify_results r.2 k today n

theorem fmLookup_fmRemove (m : FailMap) (k : String) :
    fmLookup (fmRemove m k) k = none := by
  induction m with
  | nil => rfl
  | cons p rest ih =>
    obtain ⟨k2, v⟩ := p
    by_cases h : k2 = k
    · simp [fmRemove, List.filter, h] at ih ⊢
      simpa [fmRemove] using ih
    · have hb : (k2 == k) = false := by simpa using h
      simp [fmRemove, List.filter, hb, fmLookup] at ih ⊢
      simpa [fmRemove] using ih

/-- Claim C2: should_notify_for_section follows the four-case algorithm
(absent inserts count 1 and returns true; a strictly earlier last-failure
day resets to count 1 and returns true; same day with count at least 3
suppresses and leaves the tracker unchanged; same day with count below 3
increments and returns true), and five same-day failure calls for one
target yield true, true, true, false, false. -/
theorem C2_should_notify_four_cases :
    (∀ (m : FailMap) (k : String) (now : Nat),
      (fmLookup m k = none →
        should_notify_for_section m k now = (true, fmInsert m k ⟨1, now⟩)) ∧
      (∀ f, fmLookup m k = some f → f.last_failure < now →
        should_notify_for_section m k now = (true, fmInsert m k ⟨1, now⟩)) ∧
      (∀ f, fmLookup m k = some f → f.last_failure = now → 3 ≤ f.count →
        should_notify_for_section m k now = (false, m)) ∧
      (∀ f, fmLookup m k = some f → f.last_failure = now → f.count < 3 →
        should_notify_for_section m k now = (true, fmInsert m k ⟨f.count + 1, now⟩))) ∧
    notify_results [] "K" 0 5 = [true, true, true, false, false] := by
  refine ⟨fun m k now => ⟨?_, ?_, ?_, ?_⟩, by decide⟩
  · intro h
    simp [should_notify_for_section, h]
  · intro f h hlt
    simp [should_notify_for_section, h, hlt]
  · intro f h heq hge
    have hnlt : ¬ f.last_failure < now := by omega
    simp [should_notify_for_section, h, hnlt, hge]
  · intro f h heq hlt
    have hnlt : ¬ f.last_failure < now := by omega
    have hnge : ¬ 3 ≤ f.count := by omega
    simp [should_notify_for_section, h, hnlt, hnge]

/-- Witness for C2: each of the four cases evaluated at a concrete tracker. -/
theorem C2_should_notify_four_cases_witness :
    should_notify_for_section [] "K" 0 = (true, fmInsert [] "K" ⟨1, 0⟩) ∧
    should_notify_for_section [("K", ⟨2, 0⟩)] "K" 1 = (true, fmInsert [("K", ⟨2, 0⟩)] "K" ⟨1, 1⟩) ∧
    should_notify_for_section [("K", ⟨3, 5⟩)] "K" 5 = (false, [("K", ⟨3, 5⟩)]) ∧
    should_notify_for_section [("K", ⟨1, 5⟩)] "K" 5 = (true, fmInsert [("K", ⟨1, 5⟩)] "K" ⟨2, 5⟩) :=
  ⟨(C2_should_notify_four_cases.1 [] "K" 0).1 rfl,
   (C2_should_notify_four_cases.1 [("K", ⟨2, 0⟩)] "K" 1).2.1 ⟨2, 0⟩ rfl (by decide),
   (C2_should_notify_four_cases.1 [("K", ⟨3, 5⟩)] "K" 5).2.2.1 ⟨3, 5⟩ rfl rfl (by decide),
   (C2_should_notify_four_cases.1 [("K", ⟨1, 5⟩)] "K" 5).2.2.2 ⟨1, 5⟩ rfl rfl (by decide)⟩

/-! ## Retry strategy (src/utils.rs lines 24-30, src/config.rs lines 4-5,
tokio_retry::strategy::ExponentialBackoff and tokio_retry::Retry) -/

def DEFAULT_RETRY_ATTEMPTS : Nat := 3

def DEFAULT_RETRY_DELAY : Nat := 1000

def U64_MAX : Nat := 2 ^ 64 - 1

/-- u64 checked_mul with the u64::MAX fallback used by ExponentialBackoff. -/
def sat_mul (a b : Nat) : Nat := min (a * b) U64_MAX

/-- State of tokio_retry's ExponentialBackoff iterator; delays in
milliseconds. -/
structure ExponentialBackoff where
  current : Nat
  base : Nat
  factor : Nat
  max_delay : Option Nat
deriving DecidableEq, Repr

/-- ExponentialBackoff::from_millis. -/
def ExponentialBackoff.from_millis (base : Nat) : ExponentialBackoff :=
  ⟨base, base, 1, none⟩

/-- The .factor(..) builder method. -/
def ExponentialBackoff.set_factor (s : ExponentialBackoff) (f : Nat) : ExponentialBackoff :=
  { s with factor := f }

/-- The .max_delay(..) builder method. -/
def ExponentialBackoff.set_max_delay (s : ExponentialBackoff) (d : Nat) : ExponentialBackoff :=
  { s with max_delay := some d }

/-- One step of the ExponentialBackoff iterator: the produced delay is
current * factor (saturating), clamped to max_delay; when the clamp fires
the iterator returns early without advancing current, otherwise current is
multiplied by base (saturating). -/
def ExponentialBackoff.next (s : ExponentialBackoff) : Nat × ExponentialBackoff :=
  let duration := sat_mul s.current s.factor
  match s.max_delay with
  | some m =>
    if m < duration then
      (m, s)
    else
      (duration, { s with current := sat_mul s.current s.base })
  | none => (duration, { s with current := sat_mul s.current s.base })

/-- Iterator::take on the backoff iterator: the first n delays. -/
def backoff_delays : ExponentialBackoff → Nat → List Nat
  | _, 0 => []
  | s, n + 1 =>
    let r := s.next
    r.1 :: backoff_delays r.2 n

/-- Translation of utils.rs get_retry_strategy: the list of backoff delays
(in milliseconds, before the per-delay random jitter scaling) handed to
tokio_retry::Retry::spawn. -/
def get_retry_strategy : List Nat :=
  backoff_delays
    (((ExponentialBackoff.from_millis DEFAULT_RETRY_DELAY).set_factor 2).set_max_delay 60000)
    DEFAULT_RETRY_ATTEMPTS

/-- Semantics of tokio_retry::Retry::spawn over a delay list: run the
attempt; on success stop; on failure consume one delay (sleep) and retry;
when the delay iterator is exhausted the attempt's error propagates. The
action is indexed by the attempt number; the second component counts the
attempts performed. -/
def retry_run {E A : Type} : List Nat → (Nat → Except E A) → Nat → Except E A × Nat
  | [], act, k => (act k, k + 1)
  | _ :: rest, act, k =>
    match act k with
    | .ok a => (.ok a, k + 1)
    | .error _ => retry_run rest act (k + 1)

/-- Retry::spawn(get_retry_strategy(), action).await as used by both
monitor_section_with_retry (monitor.rs lines 121-152) and
try_enroll_with_retry (enroll.rs lines 32-52). -/
def retry_spawn {E A : Type} (delays : List Nat) (act : Nat → Except E A) :
    Except E A × Nat :=
  retry_run delays act 0

theorem retry_run_attempt_bound {E A : Type} (delays : List Nat)
    (act : Nat → Except E A) (k : Nat) :
    (retry_run delays act k).2 ≤ k + delays.length + 1 := by
  induction delays generalizing k with
  | nil => simp [retry_run]
  | cons d rest ih =>
    cases hk : act k with
    | ok a =>
      have h2 : (retry_run (d :: rest) act k).2 = k + 1 := by simp [retry_run, hk]
      rw [h2]
      simp only [List.length_cons]
      omega
    | error e2 =>
      have := ih (k + 1)
      simp [retry_run, hk, List.length_cons]
      omega

theorem retry_run_all_fail {E A : Type} (delays : List Nat)
    (act : Nat → Except E A) (e : Nat → E) (k : Nat)
    (h : ∀ i, act i = .error (e i)) :
    retry_run delays act k = (.error (e (k + delays.length)), k + delays.length + 1) := by
  induction delays generalizing k with
  | nil => simp [retry_run, h k]
  | cons d rest ih =>
    simp only [retry_run, h k, List.length_cons]
    rw [ih (k + 1)]
    have hx : k + 1 + rest.length = k + (rest.length + 1) := by omega
    rw [hx]

/-- Claim C5 counterexample: the retry wrapper built from get_retry_strategy
performs 4 attempts on persistent failure (one initial attempt plus one
retry per delay of the 3-element strategy), refuting "attempted at most 3
times". -/
theorem C5_retry_attempt_count_counterexample :
    (retry_spawn get_retry_strategy
      (fun _ => (Except.error "network error" : Except String Bool))).2 = 4 ∧
    ¬ (retry_spawn get_retry_strategy
      (fun _ => (Except.error "network error" : Except String Bool))).2 ≤ 3 := by
  constructor
  · rfl
  · intro h
    have h4 : (retry_spawn get_retry_strategy
      (fun _ => (Except.error "network error" : Except String Bool))).2 = 4 := rfl
    rw [h4] at h
    omega

/-- Claim C5 amended: each retry-wrapped operation is attempted at most 4
times (one initial attempt plus up to DEFAULT_RETRY_ATTEMPTS = 3 retries);
the pre-jitter backoff delays are 2000ms, 60000ms, 60000ms (tokio_retry's
from_millis(1000) is the exponent base, multiplied by factor 2 and capped
at 60s), not 1s/2s/4s; every error is retried, with no transient versus
non-transient distinction; an error on the final attempt propagates to the
caller, and a first-attempt success makes exactly one attempt. -/
theorem C5_retry_amended :
    get_retry_strategy = [2000, 60000, 60000] ∧
    (∀ (E A : Type) (act : Nat → Except E A),
      (retry_spawn get_retry_strategy act).2 ≤ 4) ∧
    (∀ (E A : Type) (act : Nat → Except E A) (e : Nat → E),
      (∀ i, act i = .error (e i)) →
      retry_spawn get_retry_strategy act = (.error (e 3), 4)) ∧
    (∀ (E A : Type) (act : Nat → Except E A) (a : A),
      act 0 = .ok a → retry_spawn get_retry_strategy act = (.ok a, 1)) ∧
    (∀ (E A : Type) (act : Nat → Except E A) (e : E) (a : A),
      act 0 = .error e → act 1 = .ok a →
      retry_spawn get_retry_strategy act = (.ok a, 2)) := by
  have hs : get_retry_strategy = [2000, 60000, 60000] := by decide
  refine ⟨hs, ?_, ?_, ?_, ?_⟩
  · intro E A act
    have := retry_run_attempt_bound get_retry_strategy act 0
    have hlen : get_retry_strategy.length = 3 := by rw [hs]; rfl
    rw [hlen] at this
    simpa [retry_spawn] using this
  · intro E A act e h
    have := retry_run_all_fail get_retry_strategy act e 0 h
    have hlen : get_retry_strategy.length = 3 := by rw [hs]; rfl
    rw [hlen] at this
    simpa [retry_spawn] using this
  · intro E A act a h0
    simp [retry_spawn, hs, retry_run, h0]
  · intro E A act e a h0 h1
    simp [retry_spawn, hs, retry_run, h0, h1]

/-- Witness for C5 amended: concrete always-failing, immediately-succeeding
and fail-once actions. -/
theorem C5_retry_amended_witness :
    retry_spawn get_retry_strategy (fun _ => (Except.error "boom" : Except String Nat))
      = (.error "boom", 4) ∧
    retry_spawn get_retry_strategy (fun _ => (Except.ok 7 : Except String Nat))
      = (.ok 7, 1) ∧
    retry_spawn get_retry_strategy
      (fun k => if k = 0 then (Except.error "boom" : Except String Nat) else .ok 7)
      = (.ok 7, 2) :=
  ⟨C5_retry_amended.2.2.1 String Nat _ (fun _ => "boom") (fun _ => rfl),
   C5_retry_amended.2.2.2.1 String Nat _ 7 rfl,
   C5_retry_amended.2.2.2.2 String Nat _ "boom" 7 rfl rfl⟩

/-! ## Registry check/insert in start_job (src/multi_user_state.rs) -/

/-- Position of one start_job call relative to its two registry accesses:
the contains_key check under the read lock (lines 107-111) and the insert
under the write lock (lines 210-212) followed by the runtime spawn (line
219). Between the two the call performs decryption, wrapper construction
and database reads with the registry lock released. -/
inductive StartPc where
  | ready
  | passed_check
  | done (ok : Bool)
deriving DecidableEq, Repr

/-- Shared registry state together with the control points of two
concurrent start_job calls for the same job id. spawned counts the
monitoring runtimes launched for that id. -/
structure RegistryState where
  registry : List Nat
  spawned : Nat
  pc0 : StartPc
  pc1 : StartPc
deriving DecidableEq, Repr

/-- One atomic registry access of a start_job call: the ready step runs the
contains_key check and either fails with the already-running error or
proceeds; the passed_check step inserts the handle (HashMap::insert, a
no-op on membership if the id is already present) and spawns the runtime,
returning Ok. -/
def start_job_step (j : Nat) (pc : StartPc) (registry : List Nat) (spawned : Nat) :
    StartPc × List Nat × Nat :=
  match pc with
  | .ready =>
    if registry.contains j then (.done false, registry, spawned)
    else (.passed_check, registry, spawned)
  | .passed_check =>
    (.done true, if registry.contains j then registry else j :: registry, spawned + 1)
  | .done b => (.done b, registry, spawned)

/-- Interleaved execution: each schedule entry picks which of the two calls
performs its next atomic registry access. -/
def run_sched (j : Nat) : RegistryState → List Bool → RegistryState
  | s, [] => s
  | s, c :: rest =>
    if c then
      let r := start_job_step j s.pc1 s.registry s.spawned
      run_sched j { s with pc1 := r.1, registry := r.2.1, spawned := r.2.2 } rest
    else
      let r := start_job_step j s.pc0 s.registry s.spawned
      run_sched j { s with pc0 := r.1, registry := r.2.1, spawned := r.2.2 } rest

/-- Claim C3 evaluated at the failing interleaving: both start_job calls for
job 7 run their contains_key check before either inserts; both checks pass,
both calls return Ok and two monitoring runtimes are spawned for the same
job id, contradicting the claimed atomic check-and-insert with exactly one
success. -/
theorem C3_start_job_race :
    (run_sched 7 ⟨[], 0, .ready, .ready⟩ [false, true, false, true]).pc0 = .done true ∧
    (run_sched 7 ⟨[], 0, .ready, .ready⟩ [false, true, false, true]).pc1 = .done true ∧
    (run_sched 7 ⟨[], 0, .ready, .ready⟩ [false, true, false, true]).spawned = 2 ∧
    ¬ ((run_sched 7 ⟨[], 0, .ready, .ready⟩ [false, true, false, true]).pc0 = .done false ∨
       (run_sched 7 ⟨[], 0, .ready, .ready⟩ [false, true, false, true]).pc1 = .done false) := by
  decide

/-! ## Job creation and the seat threshold (src/api.rs, src/db.rs,
src/models.rs, src/multi_user_state.rs) -/

/-- The MonitoringMode enum of the single-user API (api.rs lines 35-38). -/
inductive MonitoringMode where
  | Include
  | Exclude
deriving DecidableEq, Repr

/-- Translation of api.rs create_job lines 116-119: the seat threshold the
single-user server stores into its monitoring config. -/
def api_effective_seat_threshold (monitoring_mode : MonitoringMode) (seat_threshold : Int) : Int :=
  match monitoring_mode with
  | .Include => 0
  | .Exclude => seat_threshold

/-- models.rs SectionRequest. -/
structure SectionRequest where
  lecture : String
  discussions : List String
deriving DecidableEq, Repr

/-- models.rs CourseRequest. -/
structure CourseRequest where
  department : String
  course_code : String
  sections : List SectionRequest
deriving DecidableEq, Repr

/-- models.rs CreateJobRequest, the multi-user job-creation payload; the
monitoring mode travels as a plain string. -/
structure CreateJobRequest where
  term : String
  polling_interval : Int
  cookie : String
  seat_threshold : Int
  monitoring_mode : String
  courses : List CourseRequest
deriving DecidableEq, Repr

/-- The columns of the jobs row that db.rs create_job (lines 78-105) binds
from its arguments. -/
structure JobRow where
  user_id : Nat
  term : String
  polling_interval : Int
  cookie_encrypted : String
  encryption_nonce : String
  seat_threshold : Int
  monitoring_mode : String
deriving DecidableEq, Repr

/-- Translation of db.rs create_job: every bound column comes straight from
the request; in particular seat_threshold is bound to
request.seat_threshold with no inspection of request.monitoring_mode. -/
def db_create_job (user_id : Nat) (request : CreateJobRequest)
    (cookie_encrypted encryption_nonce : String) : JobRow :=
  { user_id := user_id
    term := request.term
    polling_interval := request.polling_interval
    cookie_encrypted := cookie_encrypted
    encryption_nonce := encryption_nonce
    seat_threshold := request.seat_threshold
    monitoring_mode := request.monitoring_mode }

/-- The threshold start_job hands to the monitoring loop
(multi_user_state.rs line 201): the stored row's seat_threshold, as is. -/
def start_job_seat_threshold (job : JobRow) : Int :=
  job.seat_threshold

/-- Claim C4 counterexample: a multi-user job-creation request with
monitoring mode "include" and client threshold 5 is stored with threshold
5, not 0, and that stored value is exactly what start_job hands to the
monitoring loop. -/
theorem C4_include_mode_threshold_counterexample :
    (db_create_job 1
      { term := "FA25", polling_interval := 30, cookie := "c",
        seat_threshold := 5, monitoring_mode := "include", courses := [] }
      "enc" "nonce").seat_threshold = 5 ∧
    ¬ (db_create_job 1
      { term := "FA25", polling_interval := 30, cookie := "c",
        seat_threshold := 5, monitoring_mode := "include", courses := [] }
      "enc" "nonce").seat_threshold = 0 ∧
    start_job_seat_threshold (db_create_job 1
      { term := "FA25", polling_interval := 30, cookie := "c",
        seat_threshold := 5, monitoring_mode := "include", courses := [] }
      "enc" "nonce") = 5 := by
  refine ⟨rfl, by decide, rfl⟩

/-- Claim C4 amended: only the single-user API's create_job forces the
effective seat threshold to 0 for Include mode (and keeps the client value
for Exclude); the multi-user job-creation path stores the client-supplied
seat threshold unchanged regardless of the monitoring mode, and start_job
uses that stored value as the effective threshold. -/
theorem C4_include_mode_threshold_amended :
    (∀ t : Int, api_effective_seat_threshold .Include t = 0) ∧
    (∀ t : Int, api_effective_seat_threshold .Exclude t = t) ∧
    (∀ (uid : Nat) (request : CreateJobRequest) (ce nonce : String),
      (db_create_job uid request ce nonce).seat_threshold = request.seat_threshold ∧
      start_job_seat_threshold (db_create_job uid request ce nonce) = request.seat_threshold) :=
  ⟨fun _ => rfl, fun _ => rfl, fun _ _ _ _ => ⟨rfl, rfl⟩⟩

/-! ## Enrollment stats and the enrollment pipeline (src/stats.rs lines
11-21, src/enroll.rs, src/multi_user_state.rs lines 302-361) -/

/-- Translation of the EnrollmentStats struct (stats.rs lines 11-21). -/
structure EnrollmentStats where
  total_checks : Nat
  openings_found : Nat
  enrollment_attempts : Nat
  successful_enrollments : Nat
  errors : Nat
  last_updated : String
  start_time : String
  section_failures : FailMap
deriving DecidableEq, Repr

/-- An all-zero stats value, as initialised in state.rs lines 56-65. -/
def stats_zero : EnrollmentStats :=
  { total_checks := 0, openings_found := 0, enrollment_attempts := 0,
    successful_enrollments := 0, errors := 0, last_updated := "",
    start_time := "", section_failures := [] }

/-- Translation of enroll.rs try_enroll (lines 9-30). The two collaborator
outcomes are passed as data: build_result is the outcome of the
EnrollWaitAdd builder's try_build (None propagates as the build error
through ok_or and the question-mark operator), add_result the outcome of
the wrapper's add_section call. An add_section error is logged and
converted to Ok(false). -/
def try_enroll (build_result : Option Unit) (add_result : Except String Bool) :
    Except String Bool :=
  match build_result with
  | none => .error "Failed to build enrollment request"
  | some _ =>
    match add_result with
    | .ok result => .ok result
    | .error _ => .ok false

/-- Translation of the tail of enroll.rs try_enroll_with_retry (lines
54-79), applied to the value of the retry-wrapped call: an error propagates
with the stats untouched; a successful enrollment removes the section key
from the failure tracker; a failed enrollment runs the tracker's
should_notify_for_section. The Bool component records whether a
notification is sent rather than suppressed. -/
def try_enroll_with_retry_post (r : Except String Bool) (section_key : String)
    (today : Nat) (stats : EnrollmentStats) :
    Except String Bool × EnrollmentStats × Bool :=
  match r with
  | .error e => (.error e, stats, false)
  | .ok true =>
    (.ok true, { stats with section_failures := fmRemove stats.section_failures section_key },
      true)
  | .ok false =>
    let res := should_notify_for_section stats.section_failures section_key today
    (.ok false, { stats with section_failures := res.2 }, res.1)

/-- Translation of enroll.rs try_enroll_with_retry (lines 32-80): the
retry-wrapped try_enroll followed by the tracker update, with add_result
indexed by the attempt number. -/
def try_enroll_with_retry (build_result : Option Unit)
    (add_result : Nat → Except String Bool) (section_key : String) (today : Nat)
    (stats : EnrollmentStats) : Except String Bool × EnrollmentStats × Bool :=
  let r := retry_spawn get_retry_strategy (fun k => try_enroll build_result (add_result k))
  try_enroll_with_retry_post r.1 section_key today stats

/-- Translation of the per-target step of the multi-user monitoring sweep
(multi_user_state.rs lines 306-330, identically repeated for discussions at
lines 334-358): on Ok(Some(section_id)) from the retry-wrapped monitor the
job increments enrollment_attempts and runs the enrollment pipeline,
incrementing successful_enrollments when it returns Ok(true); every other
monitor outcome leaves the stats untouched. The Bool component records
whether the enrollment pipeline (and so the action collaborator) was
invoked at all. -/
def process_target (stats : EnrollmentStats) (monitor_result : Except String (Option String))
    (build_result : Option Unit) (add_result : Nat → Except String Bool)
    (section_key : String) (today : Nat) : EnrollmentStats × Bool :=
  match monitor_result with
  | .ok (some _) =>
    let s1 := { stats with enrollment_attempts := stats.enrollment_attempts + 1 }
    let r := try_enroll_with_retry build_result add_result section_key today s1
    match r.1 with
    | .ok true =>
      ({ r.2.1 with successful_enrollments := r.2.1.successful_enrollments + 1 }, true)
    | _ => (r.2.1, true)
  | _ => (stats, false)

theorem monitor_section_false_positive
    (course_info : List SectionInfo) (recheckFetch : Nat → List SectionInfo)
    (sect : String) (thr : Int) (si ri : SectionInfo)
    (h1 : find_section sect course_info = some si)
    (h2 : should_attempt si.available_seats thr = true)
    (h3 : find_section sect (recheckFetch 0) = some ri)
    (h4 : should_attempt ri.available_seats thr = false) :
    monitor_section course_info recheckFetch sect thr = none := by
  unfold monitor_section
  induction course_info with
  | nil => simp [find_section] at h1
  | cons c rest ih =>
    by_cases hc : (c.section_code == sect) = true
    · have hcsi : c = si := by
        simp [find_section, hc] at h1
        exact h1
      subst hcsi
      simp [monitor_section_aux, hc, h2, h3, h4]
    · have hc2 : (c.section_code == sect) = false := by simpa using hc
      simp only [find_section, hc2, if_false] at h1
      simp only [monitor_section_aux, hc2, if_false]
      exact ih h1

/-- Claim C6: when the first status reading of a target passes the threshold
check but the immediate recheck fails it, the poll cycle returns no action,
and the per-target sweep step then leaves the stats (in particular
enrollment_attempts) unchanged and never invokes the enrollment action. -/
theorem C6_debounce_false_positive_no_action :
    ∀ (course_info : List SectionInfo) (recheckFetch : Nat → List SectionInfo)
      (sect : String) (thr : Int) (si ri : SectionInfo),
      find_section sect course_info = some si →
      should_attempt si.available_seats thr = true →
      find_section sect (recheckFetch 0) = some ri →
      should_attempt ri.available_seats thr = false →
      monitor_section course_info recheckFetch sect thr = none ∧
      ∀ (stats : EnrollmentStats) (build_result : Option Unit)
        (add_result : Nat → Except String Bool) (section_key : String) (today : Nat),
        process_target stats (.ok (monitor_section course_info recheckFetch sect thr))
          build_result add_result section_key today = (stats, false) := by
  intro course_info recheckFetch sect thr si ri h1 h2 h3 h4
  have hmon := monitor_section_false_positive course_info recheckFetch sect thr si ri h1 h2 h3 h4
  refine ⟨hmon, ?_⟩
  intro stats build_result add_result section_key today
  rw [hmon]
  rfl

/-- Witness for C6: a section showing 3 seats on the first reading and 0 on
the recheck, at threshold 0. -/
theorem C6_debounce_witness :
    monitor_section [⟨"A01", "12345", 3, 100, 97, 0⟩]
      (fun _ => [⟨"A01", "12345", 0, 100, 100, 0⟩]) "A01" 0 = none ∧
    process_target stats_zero
      (.ok (monitor_section [⟨"A01", "12345", 3, 100, 97, 0⟩]
        (fun _ => [⟨"A01", "12345", 0, 100, 100, 0⟩]) "A01" 0))
      (some ()) (fun _ => .ok true) "CHEM_6A_A01_FA25" 0 = (stats_zero, false) := by
  have h := C6_debounce_false_positive_no_action
    [⟨"A01", "12345", 3, 100, 97, 0⟩] (fun _ => [⟨"A01", "12345", 0, 100, 100, 0⟩])
    "A01" 0 ⟨"A01", "12345", 3, 100, 97, 0⟩ ⟨"A01", "12345", 0, 100, 100, 0⟩
    rfl rfl rfl rfl
  exact ⟨h.1, h.2 stats_zero (some ()) (fun _ => .ok true) "CHEM_6A_A01_FA25" 0⟩

/-- Claim C7: a successful action removes the target key from the failure
tracker (enroll.rs lines 56-58), so a subsequent failure for the same key
behaves as a first-ever failure: should_notify_for_section finds no entry,
returns true and re-creates the entry with count 1. -/
theorem C7_success_clears_tracker :
    ∀ (stats : EnrollmentStats) (key : String) (today d : Nat),
      fmLookup ((try_enroll_with_retry (some ()) (fun _ => .ok true) key today stats).2.1).section_failures key
        = none ∧
      should_notify_for_section
        ((try_enroll_with_retry (some ()) (fun _ => .ok true) key today stats).2.1).section_failures key d
        = (true,
           fmInsert ((try_enroll_with_retry (some ()) (fun _ => .ok true) key today stats).2.1).section_failures
             key ⟨1, d⟩) := by
  intro stats key today d
  have hpipe : try_enroll_with_retry (some ()) (fun _ => .ok true) key today stats
      = try_enroll_with_retry_post (.ok true) key today stats := rfl
  rw [hpipe]
  have hl : fmLookup (fmRemove stats.section_failures key) key = none :=
    fmLookup_fmRemove stats.section_failures key
  constructor
  · simpa [try_enroll_with_retry_post] using hl
  · simp [try_enroll_with_retry_post, should_notify_for_section, hl]

/-- Claim C10: try_enroll converts every action-collaborator error into
Ok(false) (given the enrollment request builds, which the code guarantees
by always supplying a section id), so the retry wrapper around it succeeds
on the first attempt and never observes an error, and a failed action is
routed into the failure-notification path of try_enroll_with_retry. -/
theorem C10_try_enroll_total :
    ∀ (add_result : Nat → Except String Bool) (key : String) (today : Nat)
      (stats : EnrollmentStats),
      (∀ k, ∃ b, try_enroll (some ()) (add_result k) = .ok b) ∧
      (∀ k e, add_result k = .error e → try_enroll (some ()) (add_result k) = .ok false) ∧
      (retry_spawn get_retry_strategy (fun k => try_enroll (some ()) (add_result k))).2 = 1 ∧
      (∃ b, (retry_spawn get_retry_strategy (fun k => try_enroll (some ()) (add_result k))).1 = .ok b) ∧
      (∀ e, add_result 0 = .error e →
        try_enroll_with_retry (some ()) add_result key today stats
          = (.ok false,
             { stats with
                section_failures := (should_notify_for_section stats.section_failures key today).2 },
             (should_notify_for_section stats.section_failures key today).1)) := by
  intro add_result key today stats
  have hs : get_retry_strategy = [2000, 60000, 60000] := by decide
  have htotal : ∀ k, ∃ b, try_enroll (some ()) (add_result k) = .ok b := by
    intro k
    cases h : add_result k with
    | ok b => exact ⟨b, by simp [try_enroll, h]⟩
    | error e => exact ⟨false, by simp [try_enroll, h]⟩
  obtain ⟨b0, hb0⟩ := htotal 0
  refine ⟨htotal, ?_, ?_, ?_, ?_⟩
  · intro k e h
    simp [try_enroll, h]
  · simp [retry_spawn, hs, retry_run, hb0]
  · exact ⟨b0, by simp [retry_spawn, hs, retry_run, hb0]⟩
  · intro e h0
    have hb : try_enroll (some ()) (add_result 0) = .ok false := by simp [try_enroll, h0]
    simp [try_enroll_with_retry, retry_spawn, hs, retry_run, hb, try_enroll_with_retry_post]

/-- Witness for C10: an action collaborator that always fails. -/
theorem C10_try_enroll_total_witness :
    try_enroll (some ()) ((fun _ => (Except.error "enroll failed" : Except String Bool)) 0)
      = .ok false ∧
    (retry_spawn get_retry_strategy
      (fun k => try_enroll (some ()) ((fun _ => (Except.error "enroll failed" : Except String Bool)) k))).2 = 1 ∧
    try_enroll_with_retry (some ()) (fun _ => .error "enroll failed") "K" 0 stats_zero
      = (.ok false,
         { stats_zero with
            section_failures := (should_notify_for_section stats_zero.section_failures "K" 0).2 },
         (should_notify_for_section stats_zero.section_failures "K" 0).1) := by
  have h := C10_try_enroll_total (fun _ => .error "enroll failed") "K" 0 stats_zero
  exact ⟨h.2.1 0 "enroll failed" rfl, h.2.2.1, h.2.2.2.2 "enroll failed" rfl⟩

theorem try_enroll_with_retry_post_counters (r : Except String Bool) (key : String)
    (today : Nat) (s : EnrollmentStats) :
    (try_enroll_with_retry_post r key today s).2.1.openings_found = s.openings_found ∧
    (try_enroll_with_retry_post r key today s).2.1.errors = s.errors ∧
    (try_enroll_with_retry_post r key today s).2.1.enrollment_attempts = s.enrollment_attempts ∧
    (try_enroll_with_retry_post r key today s).2.1.successful_enrollments = s.successful_enrollments := by
  rcases r with e | b
  · simp [try_enroll_with_retry_post]
  · cases b <;> simp [try_enroll_with_retry_post]

theorem process_target_counters (stats : EnrollmentStats)
    (mres : Except String (Option String)) (build_result : Option Unit)
    (add_result : Nat → Except String Bool) (key : String) (today : Nat) :
    (process_target stats mres build_result add_result key today).1.openings_found
      = stats.openings_found ∧
    (process_target stats mres build_result add_result key today).1.errors = stats.errors := by
  cases mres with
  | error e => exact ⟨rfl, rfl⟩
  | ok o =>
    cases o with
    | none => exact ⟨rfl, rfl⟩
    | some sid =>
      cases hq : (retry_spawn get_retry_strategy
          (fun k => try_enroll build_result (add_result k))).1 with
      | error e2 =>
        simp [process_target, try_enroll_with_retry, hq, try_enroll_with_retry_post]
      | ok b =>
        cases b <;>
          simp [process_target, try_enroll_with_retry, hq, try_enroll_with_retry_post]

theorem process_target_attempts (stats : EnrollmentStats) (sid : String)
    (build_result : Option Unit) (add_result : Nat → Except String Bool)
    (key : String) (today : Nat) :
    (process_target stats (.ok (some sid)) build_result add_result key today).1.enrollment_attempts
      = stats.enrollment_attempts + 1 := by
  cases hq : (retry_spawn get_retry_strategy
      (fun k => try_enroll build_result (add_result k))).1 with
  | error e2 =>
    simp [process_target, try_enroll_with_retry, hq, try_enroll_with_retry_post]
  | ok b =>
    cases b <;>
      simp [process_target, try_enroll_with_retry, hq, try_enroll_with_retry_post]

theorem process_target_success (stats : EnrollmentStats) (sid : String)
    (build_result : Option Unit) (add_result : Nat → Except String Bool)
    (key : String) (today : Nat)
    (h : (try_enroll_with_retry build_result add_result key today
      { stats with enrollment_attempts := stats.enrollment_attempts + 1 }).1 = .ok true) :
    (process_target stats (.ok (some sid)) build_result add_result key today).1.successful_enrollments
      = stats.successful_enrollments + 1 := by
  cases hq : (retry_spawn get_retry_strategy
      (fun k => try_enroll build_result (add_result k))).1 with
  | error e2 =>
    simp [try_enroll_with_retry, hq, try_enroll_with_retry_post] at h
  | ok b =>
    cases b
    · simp [try_enroll_with_retry, hq, try_enroll_with_retry_post] at h
    · simp [process_target, try_enroll_with_retry, hq, try_enroll_with_retry_post]

/-- Claim C9 counterexample: in the Job Runtime's sweep step, a confirmed
availability whose action fails leaves openings_found at 0 (the claim says
it is incremented on every confirmed availability regardless of action
outcome), and a terminal error from the retry-wrapped status query leaves
errors at 0 (the claim says it is incremented). -/
theorem C9_sweep_stats_counterexample :
    (process_target stats_zero (.ok (some "12345")) (some ())
      (fun _ => .ok false) "K" 0).1.openings_found = 0 ∧
    ¬ (process_target stats_zero (.ok (some "12345")) (some ())
      (fun _ => .ok false) "K" 0).1.openings_found = stats_zero.openings_found + 1 ∧
    (process_target stats_zero (.error "request timed out") (some ())
      (fun _ => .ok false) "K" 0).1.errors = 0 ∧
    ¬ (process_target stats_zero (.error "request timed out") (some ())
      (fun _ => .ok false) "K" 0).1.errors = stats_zero.errors + 1 := by
  refine ⟨rfl, by decide, rfl, by decide⟩

/-- Claim C9 amended: the Job Runtime's per-target sweep step increments
enrollment_attempts on every confirmed availability and
successful_enrollments on every successful action, but it never updates
openings_found or errors (those increments exist only in
AppState::monitor_section_health, which no sweep calls), and any other
monitor outcome — including a terminal error — leaves the stats untouched
and skips the action entirely. -/
theorem C9_sweep_stats_amended :
    ∀ (stats : EnrollmentStats) (mres : Except String (Option String))
      (build_result : Option Unit) (add_result : Nat → Except String Bool)
      (key : String) (today : Nat),
      (process_target stats mres build_result add_result key today).1.openings_found
        = stats.openings_found ∧
      (process_target stats mres build_result add_result key today).1.errors
        = stats.errors ∧
      (∀ sid, mres = .ok (some sid) →
        (process_target stats mres build_result add_result key today).1.enrollment_attempts
          = stats.enrollment_attempts + 1) ∧
      (∀ sid, mres = .ok (some sid) →
        (try_enroll_with_retry build_result add_result key today
          { stats with enrollment_attempts := stats.enrollment_attempts + 1 }).1 = .ok true →
        (process_target stats mres build_result add_result key today).1.successful_enrollments
          = stats.successful_enrollments + 1) ∧
      ((mres = .ok none ∨ ∃ e, mres = .error e) →
        process_target stats mres build_result add_result key today = (stats, false)) := by
  intro stats mres build_result add_result key today
  refine ⟨(process_target_counters stats mres build_result add_result key today).1,
          (process_target_counters stats mres build_result add_result key today).2,
          ?_, ?_, ?_⟩
  · intro sid hm
    subst hm
    exact process_target_attempts stats sid build_result add_result key today
  · intro sid hm h
    subst hm
    exact process_target_success stats sid build_result add_result key today h
  · intro hm
    rcases hm with hm | ⟨e, hm⟩ <;> subst hm <;> rfl

/-- Witness for C9 amended: a confirmed availability with a succeeding
action, and a no-availability poll. -/
theorem C9_sweep_stats_amended_witness :
    (process_target stats_zero (.ok (some "12345")) (some ())
      (fun _ => .ok true) "K" 0).1.enrollment_attempts = stats_zero.enrollment_attempts + 1 ∧
    (process_target stats_zero (.ok (some "12345")) (some ())
      (fun _ => .ok true) "K" 0).1.successful_enrollments = stats_zero.successful_enrollments + 1 ∧
    (process_target stats_zero (.ok (some "12345")) (some ())
      (fun _ => .ok true) "K" 0).1.openings_found = stats_zero.openings_found ∧
    process_target stats_zero (.ok none) (some ()) (fun _ => .ok true) "K" 0
      = (stats_zero, false) := by
  have h := C9_sweep_stats_amended stats_zero (.ok (some "12345")) (some ())
    (fun _ => .ok true) "K" 0
  have h2 := C9_sweep_stats_amended stats_zero (.ok none) (some ())
    (fun _ => .ok true) "K" 0
  exact ⟨h.2.2.1 "12345" rfl, h.2.2.2.1 "12345" rfl rfl, h.1,
         h2.2.2.2.2 (Or.inl rfl)⟩
